import Mathlib

/-!
Verification of the ScholarSource backend (job lifecycle orchestrator).

Shallow embedding of the Python sources:
  * `backend/main.py`      — the FastAPI endpoints (`health_check`, `submit_job`,
    `get_job_status`, `get_shareable_results`);
  * `backend/email_service.py` — the completion notifier (`send_results_email`,
    `_build_email_html`);
  * `src/scholar_source/tools/webpage_fetcher.py` — `WebPageFetcherTool._run`.

The job store (`backend/jobs.py`), the input validator and background runner
(`backend/crew_runner.py`) are collaborators whose sources are not in the
repository snapshot; where a claim depends on them they are modelled from the
specification, with a doc comment saying so.

External effects are made explicit: the store is a function from job ids to
optional records, the database probe / email delivery / HTTP fetch outcomes
are passed in as values of explicit outcome types, and a Python function that
may raise an exception is embedded as a function into `Except`.
-/

/-- A discovered resource record, as consumed by the orchestrator and the
email builder.  In Python it is an open dict read with `.get(key, default)`;
each field is therefore optional here, and the readers apply the same
defaults the Python code does. -/
structure Resource where
  type : Option String := none
  title : Option String := none
  url : Option String := none
  source : Option String := none
  description : Option String := none
deriving Repr, DecidableEq

/-- A persisted job record (one row of the `jobs` table).  `id`, `status`
and `created_at` are accessed with mandatory indexing (`job["id"]`) in
`backend/main.py`; the remaining columns are read with `job.get(...)` and are
optional. -/
structure Job where
  id : String
  status : String
  status_message : Option String := none
  search_title : Option String := none
  results : Option (List Resource) := none
  raw_output : Option String := none
  error : Option String := none
  metadata : Option (List (String × String)) := none
  created_at : String
  completed_at : Option String := none
deriving Repr, DecidableEq

/-- The persistent job store, read through `get_job(job_id)`: a point lookup
from job ids to optional records. -/
def Store := String → Option Job

/-- An `HTTPException` raised by an endpoint in `backend/main.py`: a status
code plus the `detail` dict's `error` and `message` strings. -/
structure HTTPError where
  status_code : Nat
  error : String
  message : String
deriving Repr, DecidableEq

/-- The `JobStatusResponse` projection returned by `/api/status/{job_id}`
and `/api/results/{job_id}` (dict literal in `backend/main.py`). -/
structure JobStatusResponse where
  job_id : String
  status : String
  status_message : Option String
  search_title : Option String
  results : Option (List Resource)
  raw_output : Option String
  error : Option String
  metadata : Option (List (String × String))
  created_at : String
  completed_at : Option String
deriving Repr, DecidableEq

/-- The `JobSubmitResponse` returned by `POST /api/submit`. -/
structure JobSubmitResponse where
  job_id : String
  status : String
  message : String
deriving Repr, DecidableEq

/-- The `HealthResponse` returned by `GET /api/health`. -/
structure HealthResponse where
  status : String
  version : String
  database : String
deriving Repr, DecidableEq

/-- `GET /api/health` (`health_check` in `backend/main.py`).  The
connectivity probe (`supabase.table("jobs").select("id").limit(1).execute()`)
is external; its outcome is passed in: `Except.ok ()` when the query
succeeds, `Except.error e` when it raises with message `e`.  The handler
catches every exception and reports it only in the `database` field. -/
def health_check (probe : Except String Unit) : HealthResponse :=
  let db_status :=
    match probe with
    | Except.ok _ => "connected"
    | Except.error e => "error: " ++ e
  { status := "healthy", version := "0.1.0", database := db_status }

/-- `GET /api/status/{job_id}` (`get_job_status` in `backend/main.py`):
look the job up; 404 when absent, otherwise the full projection. -/
def get_job_status (store : Store) (job_id : String) :
    Except HTTPError JobStatusResponse :=
  match store job_id with
  | none =>
      Except.error
        { status_code := 404
          error := "Job not found"
          message := "No job found with ID: " ++ job_id }
  | some job =>
      Except.ok
        { job_id := job.id
          status := job.status
          status_message := job.status_message
          search_title := job.search_title
          results := job.results
          raw_output := job.raw_output
          error := job.error
          metadata := job.metadata
          created_at := job.created_at
          completed_at := job.completed_at }

/-- `GET /api/results/{job_id}` (`get_shareable_results` in
`backend/main.py`): 404 when the job is absent, 404 when its status is not
`"completed"`, otherwise the same projection as the status endpoint. -/
def get_shareable_results (store : Store) (job_id : String) :
    Except HTTPError JobStatusResponse :=
  match store job_id with
  | none =>
      Except.error
        { status_code := 404
          error := "Results not found"
          message := "No job found with ID: " ++ job_id }
  | some job =>
      if job.status ≠ "completed" then
        Except.error
          { status_code := 404
            error := "Results not available"
            message := "Job is " ++ job.status ++
              ". Results are only available for completed jobs." }
      else
        Except.ok
          { job_id := job.id
            status := job.status
            status_message := job.status_message
            search_title := job.search_title
            results := job.results
            raw_output := job.raw_output
            error := job.error
            metadata := job.metadata
            created_at := job.created_at
            completed_at := job.completed_at }

/-- A concrete completed job, used to instantiate theorems with hypotheses. -/
def exampleCompletedJob : Job :=
  { id := "j1", status := "completed", created_at := "2026-01-01T00:00:00Z" }

/-- A concrete running job. -/
def exampleRunningJob : Job :=
  { id := "j2", status := "running", created_at := "2026-01-01T00:00:00Z" }

/-- The submitted input parameter set (`CourseInputRequest` from
`backend/models.py`, whose fields are named in the 400 message of
`submit_job`): every field is optional. -/
structure CourseInputRequest where
  course_name : Option String := none
  university_name : Option String := none
  course_url : Option String := none
  book_title : Option String := none
  book_author : Option String := none
  isbn : Option String := none
  book_pdf_path : Option String := none
  book_url : Option String := none
deriving Repr, DecidableEq

/-- Python truthiness of an optional string field: `None` and `""` are
falsy, any other string is truthy. -/
def provided : Option String → Bool
  | none => false
  | some s => !s.isEmpty

/-- Modelled from the spec: `validate_crew_inputs` lives in
`backend/crew_runner.py`, which is not in the repository snapshot.  Per
§4.1 it is the pure predicate "at least one complete input group":
course identification (any of course name, university name, course URL),
book identification (title and author, or an ISBN), a book file
reference, or a book URL. -/
def validate_crew_inputs (inputs : CourseInputRequest) : Bool :=
  (provided inputs.course_name || provided inputs.university_name ||
    provided inputs.course_url) ||
  ((provided inputs.book_title && provided inputs.book_author) ||
    provided inputs.isbn) ||
  provided inputs.book_pdf_path ||
  provided inputs.book_url

/-- Point upsert into the job store (overwrite semantics by id). -/
def storePut (store : Store) (id : String) (job : Job) : Store :=
  fun k => if k = id then some job else store k

/-- Modelled from the spec: `create_job` lives in `backend/jobs.py`, which
is not in the repository snapshot.  Per §4.2 it generates a fresh id,
builds a Job Record with `status = pending` and `created_at = now`,
persists it, and returns the id; a persistence failure surfaces as a
store-write error and no id is returned.  The generated id, the clock and
the store-write outcome are external, so they are passed in (`newId`,
`now`, `writeOk`). -/
def create_job (store : Store) (newId : String) (now : String)
    (inputs : CourseInputRequest) (writeOk : Bool) :
    Except String (String × Store) :=
  if writeOk then
    Except.ok (newId,
      storePut store newId
        { id := newId, status := "pending", created_at := now })
  else
    Except.error "store write failed"

/-- `POST /api/submit` (`submit_job` in `backend/main.py`): reject with 400
when `validate_crew_inputs` is false (before any record is created); then
create the job and dispatch the background run (`run_crew_async` returns
immediately and contributes nothing to the synchronous response); any
exception in that block becomes a 500.  The pair returned is the HTTP
outcome together with the job store after the call. -/
def submit_job (store : Store) (newId : String) (now : String)
    (writeOk : Bool) (request : CourseInputRequest) :
    Except HTTPError JobSubmitResponse × Store :=
  if !validate_crew_inputs request then
    (Except.error
      { status_code := 400
        error := "Invalid inputs"
        message := "You must provide at least one of the following: " ++
          "course information (course_name, university_name, or course_url), " ++
          "book information (book_title + book_author, or ISBN), " ++
          "book file (book_pdf_path), or book URL (book_url)" },
     store)
  else
    match create_job store newId now request writeOk with
    | Except.error e =>
        (Except.error
          { status_code := 500
            error := "Job creation failed"
            message := e },
         store)
    | Except.ok (job_id, store2) =>
        (Except.ok
          { job_id := job_id
            status := "pending"
            message := "Job created successfully. Use job_id to poll for status." },
         store2)

/-- The four job statuses of the data model. -/
inductive Status
  | pending
  | running
  | completed
  | failed
deriving Repr, DecidableEq

/-- Modelled from the spec: the status state machine written by
`backend/crew_runner.py` (not in the repository snapshot).  Per §3 the only
edges are `pending → running → {completed, failed}`; terminal states have
no outgoing edge. -/
def statusStep : Status → Status → Bool
  | Status.pending, Status.running => true
  | Status.running, Status.completed => true
  | Status.running, Status.failed => true
  | _, _ => false

/-- `completed` and `failed` are the terminal statuses. -/
def isTerminal : Status → Bool
  | Status.completed => true
  | Status.failed => true
  | _ => false

/-- Modelled from the spec: the sequence of status values a polling client
can observe over time for one job, most recent first.  A job starts at
`pending`; a later read shows either the same status again (`stutter`) or
the successor along one edge of the state machine (`step`). -/
inductive JobTrace : List Status → Prop
  | init : JobTrace [Status.pending]
  | stutter {s : Status} {l : List Status} :
      JobTrace (s :: l) → JobTrace (s :: s :: l)
  | step {s t : Status} {l : List Status} :
      JobTrace (s :: l) → statusStep s t = true → JobTrace (t :: s :: l)

/-- Collapse consecutive duplicate reads, keeping order. -/
def collapse : List Status → List Status
  | [] => []
  | [s] => [s]
  | s :: t :: l => if s = t then collapse (t :: l) else s :: collapse (t :: l)

/-- The `params` dict handed to `resend.Emails.send` in
`backend/email_service.py` (`from_addr` and `to_addrs` stand for the
Python keys `"from"` and `"to"`, reserved words in Lean). -/
structure EmailParams where
  from_addr : String
  to_addrs : List String
  subject : String
  html : String
deriving Repr, DecidableEq

/-- The subject line built in `send_results_email`:
`f"📚 Your ScholarSource Results: {search_title}"`. -/
def email_subject (search_title : String) : String :=
  "📚 Your ScholarSource Results: " ++ search_title

/-- One resource block of the HTML body (`_build_email_html` loop body in
`backend/email_service.py`), with the Python `dict.get` defaults.
Apostrophes in the source text are written `\x27`. -/
def resource_html (resource : Resource) : String :=
  let resource_type := resource.type.getD "Resource"
  let title := resource.title.getD "Untitled"
  let url := resource.url.getD "#"
  let source := resource.source.getD "Unknown"
  let description := resource.description.getD ""
  "\n        <div style=\"margin-bottom: 20px; padding: 15px; background-color: #f9fafb; border-left: 4px solid #3b82f6; border-radius: 4px;\">\n            <div style=\"margin-bottom: 8px;\">\n                <span style=\"display: inline-block; padding: 4px 8px; background-color: #dbeafe; color: #1e40af; border-radius: 4px; font-size: 12px; font-weight: 600; margin-right: 8px;\">\n                    " ++
  resource_type ++
  "\n                </span>\n                <strong style=\"font-size: 16px; color: #1f2937;\">" ++
  title ++
  "</strong>\n            </div>\n            <div style=\"margin-bottom: 8px;\">\n                <a href=\"" ++
  url ++
  "\" style=\"color: #3b82f6; text-decoration: none; word-break: break-all;\">\n                    " ++
  url ++
  "\n                </a>\n            </div>\n            <div style=\"color: #6b7280; font-size: 14px;\">\n                <strong>Source:</strong> " ++
  source ++
  "\n            </div>\n            " ++
  (if description ≠ "" then
    "<div style=\"margin-top: 8px; color: #4b5563; font-size: 14px;\">" ++
      description ++ "</div>"
  else "") ++
  "\n        </div>\n        "

/-- The accumulated `resources_html` string: the Python `for` loop appends
one block per resource, in list order. -/
def resources_html : List Resource → String
  | [] => ""
  | r :: rest => resource_html r ++ resources_html rest

/-- `_build_email_html` from `backend/email_service.py`: the full HTML
body, with the interpolated `search_title`, resource count (and plural
suffix), accumulated resource blocks and `job_id`. -/
def _build_email_html (search_title : String) (resources : List Resource)
    (job_id : String) : String :=
  "\n    <!DOCTYPE html>\n    <html>\n    <head>\n        <meta charset=\"utf-8\">\n        <meta name=\"viewport\" content=\"width=device-width, initial-scale=1.0\">\n        <title>Your ScholarSource Results</title>\n    </head>\n    <body style=\"font-family: -apple-system, BlinkMacSystemFont, \x27Segoe UI\x27, Roboto, \x27Helvetica Neue\x27, Arial, sans-serif; line-height: 1.6; color: #1f2937; background-color: #f3f4f6; margin: 0; padding: 0;\">\n        <div style=\"max-width: 600px; margin: 0 auto; background-color: #ffffff; padding: 40px 30px;\">\n            <!-- Header -->\n            <div style=\"text-align: center; margin-bottom: 30px;\">\n                <h1 style=\"margin: 0; font-size: 28px; color: #1f2937;\">📚 ScholarSource</h1>\n                <p style=\"margin: 10px 0 0 0; color: #6b7280;\">Your educational resources are ready!</p>\n            </div>\n\n            <!-- Search Title -->\n            <div style=\"background-color: #eff6ff; padding: 20px; border-radius: 8px; margin-bottom: 30px;\">\n                <h2 style=\"margin: 0 0 10px 0; font-size: 20px; color: #1e40af;\">\n                    " ++
  search_title ++
  "\n                </h2>\n                <p style=\"margin: 0; color: #6b7280; font-size: 14px;\">\n                    We found " ++
  toString resources.length ++
  " resource" ++
  (if resources.length ≠ 1 then "s" else "") ++
  " for you\n                </p>\n            </div>\n\n            <!-- Resources -->\n            <div style=\"margin-bottom: 30px;\">\n                <h3 style=\"margin: 0 0 20px 0; font-size: 18px; color: #1f2937;\">Discovered Resources</h3>\n                " ++
  resources_html resources ++
  "\n            </div>\n\n            <!-- NotebookLM Tip -->\n            <div style=\"background-color: #fef3c7; border-left: 4px solid #f59e0b; padding: 15px; border-radius: 4px; margin-bottom: 30px;\">\n                <p style=\"margin: 0; color: #92400e; font-size: 14px;\">\n                    💡 <strong>Tip:</strong> Copy the URLs above and paste them into\n                    <a href=\"https://notebooklm.google.com\" style=\"color: #b45309; text-decoration: none;\">Google NotebookLM</a>\n                    to create flashcards, study guides, and quizzes from these resources.\n                </p>\n            </div>\n\n            <!-- Footer -->\n            <div style=\"text-align: center; padding-top: 20px; border-top: 1px solid #e5e7eb;\">\n                <p style=\"margin: 0; color: #9ca3af; font-size: 12px;\">\n                    Job ID: " ++
  job_id ++
  "\n                </p>\n                <p style=\"margin: 10px 0 0 0; color: #9ca3af; font-size: 12px;\">\n                    This email was sent because you requested results from ScholarSource.\n                </p>\n            </div>\n        </div>\n    </body>\n    </html>\n    "

/-- `send_results_email` from `backend/email_service.py`.  The environment
(`RESEND_API_KEY`) and the external delivery call (`resend.Emails.send`,
which may raise) are passed in as values: `resend_api_key` is `none` when
the variable is unset (Python also treats an empty string as
unconfigured), and `sendEmail` returns `Except.error e` when the send
raises with message `e`, `Except.ok id` otherwise.  The function always
returns a plain `Bool`: `false` when unconfigured or on any delivery
error, `true` on success. -/
def send_results_email (resend_api_key : Option String) (from_email : String)
    (sendEmail : EmailParams → Except String String)
    (to_email : String) (search_title : String)
    (resources : List Resource) (job_id : String) : Bool :=
  match resend_api_key with
  | none => false
  | some key =>
    if key.isEmpty then false
    else
      match sendEmail
        { from_addr := from_email
          to_addrs := [to_email]
          subject := email_subject search_title
          html := _build_email_html search_title resources job_id } with
      | Except.ok _ => true
      | Except.error _ => false

/-- The outcome of `requests.get(url, timeout=15, ...)` followed by
`response.raise_for_status()` in `webpage_fetcher.py`: a timeout, an HTTP
error with its status code, any other request failure with its message, or
the response body text. -/
inductive FetchOutcome
  | timeout
  | httpError (status_code : Nat)
  | requestError (msg : String)
  | success (body : String)
deriving Repr, DecidableEq

/-- The whitespace cleanup of `WebPageFetcherTool._run`:
`lines = [line.strip() for line in text.split('\n') if line.strip()]`
then `'\n'.join(lines)`. -/
def clean_text (text : String) : String :=
  String.intercalate "\n"
    (((text.splitOn "\n").map String.trim).filter (fun line => line ≠ ""))

/-- `WebPageFetcherTool._run` from
`src/scholar_source/tools/webpage_fetcher.py`.  The network fetch and the
BeautifulSoup processing (parse, decompose script/style/nav/footer/header,
`get_text`) are external; the fetch outcome is passed in, and `soupText`
models the parsing pipeline on the body, returning `Except.error e` when
it raises.  Every failure path returns an `ERROR: `-prefixed string; the
success path returns the cleaned text. -/
def WebPageFetcherTool_run (url : String) (fetch : FetchOutcome)
    (soupText : String → Except String String) : String :=
  match fetch with
  | FetchOutcome.timeout =>
      "ERROR: Request timed out while fetching " ++ url
  | FetchOutcome.httpError status_code =>
      "ERROR: HTTP error " ++ toString status_code ++ " while fetching " ++ url
  | FetchOutcome.requestError msg =>
      "ERROR: Could not fetch " ++ url ++ ": " ++ msg
  | FetchOutcome.success body =>
      match soupText body with
      | Except.error e =>
          "ERROR: Unexpected error while processing " ++ url ++ ": " ++ e
      | Except.ok text => clean_text text

/-- `x` occurs as a contiguous substring of `s`. -/
def StrContains (s x : String) : Prop :=
  ∃ a b, s = a ++ x ++ b

/-- A store holding only the completed example job. -/
def exampleStore : Store := fun _ => some exampleCompletedJob

/-- A store holding only the running example job. -/
def exampleRunningStore : Store := fun _ => some exampleRunningJob

/-- The store with no job at all. -/
def emptyStore : Store := fun _ => none

/-- A request with one complete input group (a course name). -/
def exampleValidRequest : CourseInputRequest :=
  { course_name := some "Intro to Algorithms" }

/-- A request with every field unset: it satisfies no input group. -/
def exampleEmptyRequest : CourseInputRequest := {}

/-- A concrete discovered resource. -/
def exampleResource : Resource :=
  { type := some "Lecture Notes"
    title := some "Algorithms Lecture Notes"
    url := some "https://example.edu/notes"
    source := some "Example University"
    description := some "Full course notes" }

/-! ## Helper lemmas -/

theorem strContains_left {s x : String} (h : StrContains s x) (t : String) :
    StrContains (s ++ t) x := by
  obtain ⟨a, b, rfl⟩ := h
  exact ⟨a, b ++ t, by simp [String.append_assoc]⟩

theorem strContains_right (s : String) {t x : String} (h : StrContains t x) :
    StrContains (s ++ t) x := by
  obtain ⟨a, b, rfl⟩ := h
  exact ⟨s ++ a, b, by simp [String.append_assoc]⟩

theorem strContains_end (a x : String) : StrContains (a ++ x) x :=
  ⟨a, "", (String.append_empty (a ++ x)).symm⟩

theorem strContains_start (x b : String) : StrContains (x ++ b) x :=
  ⟨"", b, by rw [String.empty_append]⟩

/-! ## Claims about the read endpoints -/

/-- C9: the health endpoint never fails: whatever the store-connectivity
probe does — succeed, or raise with any message — `health_check` returns a
response with status `"healthy"`, and the probe failure shows up only as
an error string in the `database` field. -/
theorem health_check_always_healthy (probe : Except String Unit) :
    (health_check probe).status = "healthy" ∧
    (probe = Except.ok () → (health_check probe).database = "connected") ∧
    (∀ e, probe = Except.error e →
      (health_check probe).database = "error: " ++ e) := by
  refine ⟨?_, ?_, ?_⟩
  · cases probe <;> rfl
  · intro h; subst h; rfl
  · intro e h; subst h; rfl

/-- Witness for C9 at a concrete failing probe. -/
theorem health_check_always_healthy_witness :
    (health_check (Except.error "connection refused")).status = "healthy" ∧
    (health_check (Except.error "connection refused")).database =
      "error: " ++ "connection refused" :=
  ⟨(health_check_always_healthy (Except.error "connection refused")).1,
   (health_check_always_healthy (Except.error "connection refused")).2.2
     "connection refused" rfl⟩

/-- C8: when the store lookup returns no record, both the status endpoint
and the shareable-results endpoint report 404; both are pure reads of the
store (they are functions of the store and return no updated store). -/
theorem unknown_job_both_endpoints_404 (store : Store) (job_id : String)
    (h : store job_id = none) :
    get_job_status store job_id =
      Except.error
        { status_code := 404
          error := "Job not found"
          message := "No job found with ID: " ++ job_id } ∧
    get_shareable_results store job_id =
      Except.error
        { status_code := 404
          error := "Results not found"
          message := "No job found with ID: " ++ job_id } := by
  constructor <;> simp [get_job_status, get_shareable_results, h]

/-- Witness for C8 on the empty store. -/
theorem unknown_job_both_endpoints_404_witness :
    emptyStore "nope" = none ∧
    get_job_status emptyStore "nope" =
      Except.error
        { status_code := 404
          error := "Job not found"
          message := "No job found with ID: " ++ "nope" } :=
  ⟨rfl, (unknown_job_both_endpoints_404 emptyStore "nope" rfl).1⟩

/-- C1: for a stored job with status `"completed"`, the shareable-results
endpoint returns exactly the status endpoint's payload; for a stored job
with any other status, the shareable-results endpoint reports 404 while
the status endpoint returns the record's projection as-is. -/
theorem shareable_results_refines_status (store : Store) (job_id : String)
    (job : Job) (h : store job_id = some job) :
    (job.status = "completed" →
      get_shareable_results store job_id = get_job_status store job_id) ∧
    (job.status ≠ "completed" →
      get_shareable_results store job_id =
        Except.error
          { status_code := 404
            error := "Results not available"
            message := "Job is " ++ job.status ++
              ". Results are only available for completed jobs." } ∧
      get_job_status store job_id =
        Except.ok
          { job_id := job.id
            status := job.status
            status_message := job.status_message
            search_title := job.search_title
            results := job.results
            raw_output := job.raw_output
            error := job.error
            metadata := job.metadata
            created_at := job.created_at
            completed_at := job.completed_at }) := by
  constructor
  · intro hc
    simp [get_shareable_results, get_job_status, h, hc]
  · intro hc
    constructor
    · simp [get_shareable_results, h, hc]
    · simp [get_job_status, h]

/-- Witness for C1: a completed job and a running job in concrete stores. -/
theorem shareable_results_refines_status_witness :
    (exampleStore "j1" = some exampleCompletedJob ∧
      get_shareable_results exampleStore "j1" = get_job_status exampleStore "j1") ∧
    (exampleRunningStore "j2" = some exampleRunningJob ∧
      get_shareable_results exampleRunningStore "j2" =
        Except.error
          { status_code := 404
            error := "Results not available"
            message := "Job is " ++ exampleRunningJob.status ++
              ". Results are only available for completed jobs." }) :=
  ⟨⟨rfl,
    (shareable_results_refines_status exampleStore "j1" exampleCompletedJob rfl).1 rfl⟩,
   ⟨rfl,
    ((shareable_results_refines_status exampleRunningStore "j2" exampleRunningJob rfl).2
      (by decide)).1⟩⟩

/-! ## Claims about the submission path -/

/-- C3: when the input validator rejects the submitted set, `submit_job`
responds with a 400 error carrying the invalid-inputs message, returns no
job id (the outcome is `Except.error`, which carries none), and the job
store is left exactly as it was: no record is created. -/
theorem submit_job_rejects_invalid (store : Store) (newId now : String)
    (writeOk : Bool) (request : CourseInputRequest)
    (h : validate_crew_inputs request = false) :
    (submit_job store newId now writeOk request).1 =
      Except.error
        { status_code := 400
          error := "Invalid inputs"
          message := "You must provide at least one of the following: " ++
            "course information (course_name, university_name, or course_url), " ++
            "book information (book_title + book_author, or ISBN), " ++
            "book file (book_pdf_path), or book URL (book_url)" } ∧
    (submit_job store newId now writeOk request).2 = store := by
  constructor <;> simp [submit_job, h]

/-- Witness for C3 at the all-empty request. -/
theorem submit_job_rejects_invalid_witness :
    validate_crew_inputs exampleEmptyRequest = false ∧
    (submit_job emptyStore "id-1" "2026-01-01" true exampleEmptyRequest).2 =
      emptyStore :=
  ⟨by decide,
   (submit_job_rejects_invalid emptyStore "id-1" "2026-01-01" true
     exampleEmptyRequest (by decide)).2⟩

/-- C4: when the validator accepts the request and the store write
succeeds, `submit_job` returns synchronously a response whose fields are
exactly the fresh job id, the literal status `"pending"` and the fixed
message — for every store, i.e. however far the dispatched background
execution may already have advanced the persisted state. -/
theorem submit_job_success_response (store : Store) (newId now : String)
    (request : CourseInputRequest)
    (h : validate_crew_inputs request = true) :
    (submit_job store newId now true request).1 =
      Except.ok
        { job_id := newId
          status := "pending"
          message := "Job created successfully. Use job_id to poll for status." } := by
  simp [submit_job, create_job, h]

/-- Witness for C4 at a concrete valid request. -/
theorem submit_job_success_response_witness :
    validate_crew_inputs exampleValidRequest = true ∧
    (submit_job emptyStore "id-1" "2026-01-01" true exampleValidRequest).1 =
      Except.ok
        { job_id := "id-1"
          status := "pending"
          message := "Job created successfully. Use job_id to poll for status." } :=
  ⟨by decide,
   submit_job_success_response emptyStore "id-1" "2026-01-01"
     exampleValidRequest (by decide)⟩

/-- C5: when persisting the job fails, `submit_job` surfaces a 500 error
to the caller; the outcome is `Except.error`, which carries no job id,
and the store is unchanged. -/
theorem submit_job_store_error_500 (store : Store) (newId now : String)
    (request : CourseInputRequest)
    (h : validate_crew_inputs request = true) :
    (submit_job store newId now false request).1 =
      Except.error
        { status_code := 500
          error := "Job creation failed"
          message := "store write failed" } ∧
    (submit_job store newId now false request).2 = store := by
  constructor <;> simp [submit_job, create_job, h]

/-- Witness for C5: a failing store write on a concrete valid request. -/
theorem submit_job_store_error_500_witness :
    validate_crew_inputs exampleValidRequest = true ∧
    (submit_job emptyStore "id-1" "2026-01-01" false exampleValidRequest).1 =
      Except.error
        { status_code := 500
          error := "Job creation failed"
          message := "store write failed" } :=
  ⟨by decide,
   (submit_job_store_error_500 emptyStore "id-1" "2026-01-01"
     exampleValidRequest (by decide)).1⟩

/-! ## Claims about the completion notifier -/

/-- C6: `send_results_email` always returns a plain boolean (the embedding
returns `Bool`, so no exception can propagate): it returns `false` when no
delivery channel is configured (`RESEND_API_KEY` unset, or set empty), it
returns `false` when the delivery call raises, and it returns `true` only
when the delivery call succeeds. -/
theorem send_results_email_never_raises (resend_api_key : Option String)
    (from_email : String) (sendEmail : EmailParams → Except String String)
    (to_email : String) (search_title : String)
    (resources : List Resource) (job_id : String) :
    (resend_api_key = none →
      send_results_email resend_api_key from_email sendEmail to_email
        search_title resources job_id = false) ∧
    (resend_api_key = some "" →
      send_results_email resend_api_key from_email sendEmail to_email
        search_title resources job_id = false) ∧
    (∀ key e, resend_api_key = some key → key.isEmpty = false →
      sendEmail
        { from_addr := from_email
          to_addrs := [to_email]
          subject := email_subject search_title
          html := _build_email_html search_title resources job_id } =
        Except.error e →
      send_results_email resend_api_key from_email sendEmail to_email
        search_title resources job_id = false) ∧
    (∀ key r, resend_api_key = some key → key.isEmpty = false →
      sendEmail
        { from_addr := from_email
          to_addrs := [to_email]
          subject := email_subject search_title
          html := _build_email_html search_title resources job_id } =
        Except.ok r →
      send_results_email resend_api_key from_email sendEmail to_email
        search_title resources job_id = true) := by
  refine ⟨?_, ?_, ?_, ?_⟩
  · intro h; subst h; rfl
  · intro h; subst h; rfl
  · intro key e hkey hne hsend
    subst hkey
    simp [send_results_email, hne, hsend]
  · intro key r hkey hne hsend
    subst hkey
    simp [send_results_email, hne, hsend]

/-- Witness for C6: unconfigured channel, and a failing delivery call. -/
theorem send_results_email_never_raises_witness :
    send_results_email none "onboarding@resend.dev"
      (fun _ => Except.error "api down") "a@b.edu" "Algorithms Resources"
      [] "j1" = false ∧
    send_results_email (some "re_123") "onboarding@resend.dev"
      (fun _ => Except.error "api down") "a@b.edu" "Algorithms Resources"
      [] "j1" = false :=
  ⟨(send_results_email_never_raises none "onboarding@resend.dev"
      (fun _ => Except.error "api down") "a@b.edu" "Algorithms Resources"
      [] "j1").1 rfl,
   (send_results_email_never_raises (some "re_123") "onboarding@resend.dev"
      (fun _ => Except.error "api down") "a@b.edu" "Algorithms Resources"
      [] "j1").2.2.1 "re_123" "api down" rfl rfl rfl⟩

/-! ## Claims about the email content -/

theorem resource_html_fields (r : Resource) :
    StrContains (resource_html r) (r.type.getD "Resource") ∧
    StrContains (resource_html r) (r.title.getD "Untitled") ∧
    StrContains (resource_html r) (r.url.getD "#") ∧
    StrContains (resource_html r) (r.source.getD "Unknown") := by
  refine ⟨?_, ?_, ?_, ?_⟩ <;>
  · simp only [resource_html]
    repeat first
      | exact strContains_end _ _
      | apply strContains_left

theorem resources_html_mem {r : Resource} {res : List Resource} (h : r ∈ res)
    {x : String} (hx : StrContains (resource_html r) x) :
    StrContains (resources_html res) x := by
  induction res with
  | nil => cases h
  | cons hd tl ih =>
    rcases List.mem_cons.mp h with rfl | hmem
    · exact strContains_left hx _
    · exact strContains_right _ (ih hmem)

theorem build_email_html_resources_part (search_title : String)
    (resources : List Resource) (job_id : String) {x : String}
    (hx : StrContains (resources_html resources) x) :
    StrContains (_build_email_html search_title resources job_id) x := by
  unfold _build_email_html
  exact strContains_left
    (strContains_left (strContains_left (strContains_right _ hx) _) _) _

/-- C7: the notification message mentions everything the claim lists: the
subject contains `search_title`; the HTML body contains `search_title`,
the textual count `len(resources)` and `job_id`; and for each resource in
the list the body contains the displayed type, title, url and source of
that record. -/
theorem email_content_mentions (search_title : String)
    (resources : List Resource) (job_id : String) :
    StrContains (email_subject search_title) search_title ∧
    StrContains (_build_email_html search_title resources job_id) search_title ∧
    StrContains (_build_email_html search_title resources job_id)
      (toString resources.length) ∧
    StrContains (_build_email_html search_title resources job_id) job_id ∧
    (∀ r ∈ resources,
      StrContains (_build_email_html search_title resources job_id)
        (r.type.getD "Resource") ∧
      StrContains (_build_email_html search_title resources job_id)
        (r.title.getD "Untitled") ∧
      StrContains (_build_email_html search_title resources job_id)
        (r.url.getD "#") ∧
      StrContains (_build_email_html search_title resources job_id)
        (r.source.getD "Unknown")) := by
  refine ⟨?_, ?_, ?_, ?_, ?_⟩
  · unfold email_subject
    exact strContains_end _ _
  · unfold _build_email_html
    repeat first
      | exact strContains_end _ _
      | apply strContains_left
  · unfold _build_email_html
    repeat first
      | exact strContains_end _ _
      | apply strContains_left
  · unfold _build_email_html
    repeat first
      | exact strContains_end _ _
      | apply strContains_left
  · intro r hr
    obtain ⟨h1, h2, h3, h4⟩ := resource_html_fields r
    exact ⟨build_email_html_resources_part _ _ _ (resources_html_mem hr h1),
      build_email_html_resources_part _ _ _ (resources_html_mem hr h2),
      build_email_html_resources_part _ _ _ (resources_html_mem hr h3),
      build_email_html_resources_part _ _ _ (resources_html_mem hr h4)⟩

/-- Witness for C7 at a concrete title, one-resource list and job id. -/
theorem email_content_mentions_witness :
    exampleResource ∈ [exampleResource] ∧
    StrContains
      (_build_email_html "Algorithms Resources" [exampleResource] "j1")
      (exampleResource.title.getD "Untitled") :=
  ⟨List.mem_singleton.mpr rfl,
   ((email_content_mentions "Algorithms Resources" [exampleResource] "j1").2.2.2.2
     exampleResource (List.mem_singleton.mpr rfl)).2.1⟩

/-! ## Claim about the webpage fetcher -/

/-- C10: `WebPageFetcherTool._run` is total at its public interface: it is
a function into `String` (every failure of the fetch or of the processing
pipeline arrives as a value, and no exception propagates), and for every
input it returns either the cleaned text of a successfully fetched and
processed page or a string beginning with `"ERROR: "`. -/
theorem webpage_fetcher_run_total (url : String) (fetch : FetchOutcome)
    (soupText : String → Except String String) :
    (∃ body text, fetch = FetchOutcome.success body ∧
      soupText body = Except.ok text ∧
      WebPageFetcherTool_run url fetch soupText = clean_text text) ∨
    (∃ rest, WebPageFetcherTool_run url fetch soupText = "ERROR: " ++ rest) := by
  cases fetch with
  | timeout =>
    right
    refine ⟨"Request timed out while fetching " ++ url, ?_⟩
    show "ERROR: Request timed out while fetching " ++ url = _
    rw [← String.append_assoc]; rfl
  | httpError code =>
    right
    refine ⟨"HTTP error " ++ toString code ++ " while fetching " ++ url, ?_⟩
    show "ERROR: HTTP error " ++ toString code ++ " while fetching " ++ url = _
    simp only [← String.append_assoc]; rfl
  | requestError msg =>
    right
    refine ⟨"Could not fetch " ++ url ++ ": " ++ msg, ?_⟩
    show "ERROR: Could not fetch " ++ url ++ ": " ++ msg = _
    simp only [← String.append_assoc]; rfl
  | success body =>
    cases hsoup : soupText body with
    | error e =>
      right
      refine ⟨"Unexpected error while processing " ++ url ++ ": " ++ e, ?_⟩
      show WebPageFetcherTool_run url (FetchOutcome.success body) soupText = _
      simp only [WebPageFetcherTool_run, hsoup]
      simp only [← String.append_assoc]; rfl
    | ok text =>
      left
      exact ⟨body, text, rfl, hsoup, by simp [WebPageFetcherTool_run, hsoup]⟩

/-! ## Claim about the status state machine -/

theorem statusStep_not_terminal {s t : Status} (h : statusStep s t = true) :
    isTerminal s = false := by
  cases s <;> cases t <;> simp_all [statusStep, isTerminal]

theorem statusStep_ne {s t : Status} (h : statusStep s t = true) : t ≠ s := by
  cases s <;> cases t <;> simp_all [statusStep]

theorem collapse_cons (s : Status) (l : List Status) :
    ∃ u, collapse (s :: l) = s :: u := by
  induction l generalizing s with
  | nil => exact ⟨[], rfl⟩
  | cons t l ih =>
    by_cases hst : s = t
    · subst hst
      obtain ⟨u, hu⟩ := ih s
      exact ⟨u, by simp [collapse, hu]⟩
    · obtain ⟨u, hu⟩ := ih t
      exact ⟨collapse (t :: l), by simp [collapse, hst]⟩

theorem jobTrace_collapse {l : List Status} (h : JobTrace l) :
    collapse l = [Status.pending] ∨
    collapse l = [Status.running, Status.pending] ∨
    collapse l = [Status.completed, Status.running, Status.pending] ∨
    collapse l = [Status.failed, Status.running, Status.pending] := by
  induction h with
  | init => left; rfl
  | @stutter s l h ih => simpa [collapse] using ih
  | @step s t l h hstep ih =>
    have hne : t ≠ s := statusStep_ne hstep
    have hcol : collapse (t :: s :: l) = t :: collapse (s :: l) := by
      simp [collapse, hne]
    obtain ⟨u, hu⟩ := collapse_cons s l
    rcases ih with h1 | h1 | h1 | h1 <;> rw [hu] at h1 <;>
      injection h1 with hhead htail <;> subst hhead <;>
      cases t <;> simp_all [statusStep, hcol, hu]

theorem jobTrace_terminal_stable {L : List Status} (h : JobTrace L) :
    ∀ a l, L = a :: l → ∀ s, isTerminal s = true → s ∈ l → a = s := by
  induction h with
  | init =>
    intro a l hL s hs hmem
    injection hL with h1 h2
    subst h2
    cases hmem
  | @stutter b t h ih =>
    intro a l hL s hs hmem
    injection hL with h1 h2
    subst h1; subst h2
    rcases List.mem_cons.mp hmem with rfl | hmem2
    · rfl
    · exact ih _ t rfl s hs hmem2
  | @step b c t h hstep ih =>
    intro a l hL s hs hmem
    injection hL with h1 h2
    subst h1; subst h2
    rcases List.mem_cons.mp hmem with rfl | hmem2
    · exact absurd (statusStep_not_terminal hstep) (by simp [hs])
    · have hb : b = s := ih _ t rfl s hs hmem2
      subst hb
      exact absurd (statusStep_not_terminal hstep) (by simp [hs])

/-- C2: along any observable read sequence of a job (most recent read
first), the deduplicated sequence in chronological order is a prefix of
`[pending, running, completed]` or of `[pending, running, failed]`; and
once a terminal status has been read, every later read shows that same
status. -/
theorem status_trace_monotonic (l : List Status) (h : JobTrace l) :
    ((collapse l).reverse <+:
        [Status.pending, Status.running, Status.completed] ∨
      (collapse l).reverse <+:
        [Status.pending, Status.running, Status.failed]) ∧
    (∀ a l2, l = a :: l2 → ∀ s, isTerminal s = true → s ∈ l2 → a = s) := by
  constructor
  · rcases jobTrace_collapse h with h1 | h1 | h1 | h1 <;> rw [h1] <;>
      first | (left; decide) | (right; decide)
  · exact jobTrace_terminal_stable h

/-- Witness for C2 on the concrete trace `pending`, then `running`. -/
theorem status_trace_monotonic_witness :
    JobTrace [Status.running, Status.pending] ∧
    ((collapse [Status.running, Status.pending]).reverse <+:
        [Status.pending, Status.running, Status.completed] ∨
      (collapse [Status.running, Status.pending]).reverse <+:
        [Status.pending, Status.running, Status.failed]) :=
  have ht : JobTrace [Status.running, Status.pending] :=
    JobTrace.step JobTrace.init rfl
  ⟨ht, (status_trace_monotonic _ ht).1⟩
